import Mathlib

/-!
Verification development for the drmaa2 repository.

The repository contains test programs (`example.c`, `tests/src/hold.c`,
`tests/src/list_free.c`, `tests/src/given.c`) that exercise the DRMAA2 C
library through the header `drmaa2.h` (reproduced in `docs/plans.rst`).
The library implementation itself (Univa Grid Engine) is not part of the
repository; only the header declarations, the documented memory policy and
the observed behaviour of the test programs are.  Accordingly, the constant
definitions below are translated directly from the header, while the
operational model of the container, descriptor, session-registry, error and
wait-any components is modelled from the specification, as indicated in each
doc comment.
-/

namespace Drmaa2

/-! ## Constants from drmaa2.h (docs/plans.rst) -/

/-- `DRMAA2_FALSE = 0` from the `drmaa2_bool` enum in drmaa2.h. -/
def DRMAA2_FALSE : Int := 0

/-- `DRMAA2_TRUE = 1` from the `drmaa2_bool` enum in drmaa2.h. -/
def DRMAA2_TRUE : Int := 1

/-- `#define DRMAA2_UNSET_BOOL DRMAA2_FALSE` from drmaa2.h. -/
def DRMAA2_UNSET_BOOL : Int := DRMAA2_FALSE

/-- `#define DRMAA2_UNSET_NUM -1` from drmaa2.h. -/
def DRMAA2_UNSET_NUM : Int := -1

/-- `#define DRMAA2_UNSET_ENUM -1` from drmaa2.h. -/
def DRMAA2_UNSET_ENUM : Int := -1

/-- `#define DRMAA2_ZERO_TIME ((time_t) 0)` from drmaa2.h. -/
def DRMAA2_ZERO_TIME : Int := 0

/-- `#define DRMAA2_INFINITE_TIME ((time_t) -1)` from drmaa2.h. -/
def DRMAA2_INFINITE_TIME : Int := -1

/-- `#define DRMAA2_NOW ((time_t) -2)` from drmaa2.h. -/
def DRMAA2_NOW : Int := -2

/-- `#define DRMAA2_UNSET_TIME ((time_t) -3)` from drmaa2.h. -/
def DRMAA2_UNSET_TIME : Int := -3

/-- `#define DRMAA2_UNSET_STRING NULL` from drmaa2.h; a `drmaa2_string` is a
nullable C string, modelled as `Option String` with `none` for NULL. -/
def DRMAA2_UNSET_STRING : Option String := none

/-- `#define DRMAA2_UNSET_LIST NULL` from drmaa2.h; a null list pointer,
modelled as `Option` over list contents with `none` for NULL. -/
def DRMAA2_UNSET_LIST : Option (List String) := none

/-- `DRMAA2_SUCCESS = 0` from the `drmaa2_error` enum in drmaa2.h. -/
def DRMAA2_SUCCESS : Int := 0

/-- `DRMAA2_SESSION_MANAGEMENT = 4` from the `drmaa2_error` enum in drmaa2.h. -/
def DRMAA2_SESSION_MANAGEMENT : Int := 4

/-- `DRMAA2_INTERNAL = 6` from the `drmaa2_error` enum in drmaa2.h; the error
code that `hold.c` tests for (`if (6 == err)`) before destroying a stale
session and retrying creation. -/
def DRMAA2_INTERNAL : Int := 6

/-- `DRMAA2_INVALID_SESSION = 8` from the `drmaa2_error` enum in drmaa2.h. -/
def DRMAA2_INVALID_SESSION : Int := 8

/-- `DRMAA2_UNSET_JSTATE = -1` from the `drmaa2_jstate` enum in drmaa2.h. -/
def DRMAA2_UNSET_JSTATE : Int := -1

/-- The nine reportable job states of the `drmaa2_jstate` enum in drmaa2.h:
`DRMAA2_UNDETERMINED = 0` through `DRMAA2_FAILED = 8`. -/
def drmaa2_jstate_values : List Int := [0, 1, 2, 3, 4, 5, 6, 7, 8]

/-! ## Ownership-aware container

Heap objects handed to the container (strings, job handles) are identified by
their addresses, modelled as natural numbers.  A destruction step is recorded
as a release log: the list of addresses on which the per-element release
callback is invoked. -/

/-- Modelled from the spec: the implementation of `struct drmaa2_list_s` is not
in the repository (drmaa2.h only declares it).  Section 3 of the spec defines
the Ownership-Aware Container as "an ordered sequence of opaque elements plus
an optional release function" fixed at creation.  `hasRelease` records whether
a `drmaa2_list_entryfree` callback was registered by `drmaa2_list_create`. -/
structure DrmaaList (α : Type) where
  hasRelease : Bool
  elems : List α
deriving Repr, DecidableEq

/-- Modelled from the spec: `drmaa2_list_create(type, callback)` returns an
empty container remembering whether a release callback was supplied
(`create(releaseFn?) -> container`, spec section 4.1). -/
def drmaa2_list_create (α : Type) (hasRelease : Bool) : DrmaaList α :=
  ⟨hasRelease, []⟩

/-- Modelled from the spec: `drmaa2_list_add(l, value)` appends an element at
the end of the ordered sequence (`add(container, element)`, spec section 4.1). -/
def drmaa2_list_add {α : Type} (l : DrmaaList α) (v : α) : DrmaaList α :=
  { l with elems := l.elems ++ [v] }

/-- Modelled from the spec: `drmaa2_list_size(l)` returns the element count
(`size(container) -> count`, spec section 4.1). -/
def drmaa2_list_size {α : Type} (l : DrmaaList α) : Nat :=
  l.elems.length

/-- Modelled from the spec: `drmaa2_list_get(l, pos)` returns a read-only view
of the element at `pos`, with no ownership transfer (spec section 4.1); NULL
for an out-of-range position is modelled as `none`. -/
def drmaa2_list_get {α : Type} (l : DrmaaList α) (pos : Nat) : Option α :=
  l.elems.get? pos

/-- Modelled from the spec: `drmaa2_list_del(l, pos)` detaches the element at
`pos`, shifting subsequent indices; "removal does not invoke the release
function (removal hands ownership back to the caller)" (spec section 3), so
its release log is empty.  The pair is the updated container and the (empty)
release log of the operation. -/
def drmaa2_list_del {α : Type} (l : DrmaaList α) (pos : Nat) :
    DrmaaList α × List α :=
  ({ l with elems := l.elems.eraseIdx pos }, [])

/-- Modelled from the spec: `drmaa2_list_free(&l)` "invokes releaseFn on each
remaining element iff releaseFn was registered, then frees internal storage"
(spec section 4.1).  The result is the release log: the elements the release
callback is invoked on. -/
def drmaa2_list_free {α : Type} (l : DrmaaList α) : List α :=
  if l.hasRelease then l.elems else []

/-- A caller-visible container operation: adding an element or detaching the
element at a position, as performed by the test programs between creation and
destruction of a container. -/
inductive ListOp (α : Type) where
  | add (v : α)
  | del (pos : Nat)
deriving Repr, DecidableEq

/-- One operation applied to a container, paired with the release log of that
operation (`add` releases nothing; `del` releases nothing by the detachment
rule of spec section 3). -/
def applyListOp {α : Type} (l : DrmaaList α) : ListOp α → DrmaaList α × List α
  | .add v => (drmaa2_list_add l v, [])
  | .del p => drmaa2_list_del l p

/-- A sequence of container operations, accumulating the concatenated release
logs of every step. -/
def runListOps {α : Type} (l : DrmaaList α) :
    List (ListOp α) → DrmaaList α × List α
  | [] => (l, [])
  | op :: ops =>
      let step := applyListOp l op
      let rest := runListOps step.1 ops
      (rest.1, step.2 ++ rest.2)

/-- Whether every `del` in the sequence addresses a position that exists at the
time it is issued (the test programs only delete indices found by searching the
current list). -/
def validListOps {α : Type} (l : DrmaaList α) : List (ListOp α) → Bool
  | [] => true
  | .add v :: ops => validListOps (drmaa2_list_add l v) ops
  | .del p :: ops =>
      decide (p < drmaa2_list_size l) &&
        validListOps (drmaa2_list_del l p).1 ops

/-- Number of `add` operations in a sequence. -/
def addCount {α : Type} : List (ListOp α) → Nat
  | [] => 0
  | .add _ :: ops => addCount ops + 1
  | .del _ :: ops => addCount ops

/-- Number of `del` operations in a sequence. -/
def delCount {α : Type} : List (ListOp α) → Nat
  | [] => 0
  | .add _ :: ops => delCount ops
  | .del _ :: ops => delCount ops + 1

/-! ## Job template and job info descriptors -/

/-- Modelled from the spec: the implementation of `drmaa2_jtemplate_free` is
not in the repository.  A job template (`drmaa2_jtemplate_s` in drmaa2.h) with
its two container-typed fields, `args` (a `drmaa2_string_list`) and
`jobEnvironment` (a `drmaa2_dict`); each field holds the address of the
installed container, or `none` for the NULL default set by
`drmaa2_jtemplate_create`. -/
structure Jtemplate where
  args : Option Nat
  jobEnvironment : Option Nat
deriving Repr, DecidableEq

/-- Modelled from the spec: `drmaa2_jtemplate_create()` returns a template
with "all fields at unset defaults" (spec section 4.3): both container fields
are NULL. -/
def drmaa2_jtemplate_create : Jtemplate :=
  ⟨none, none⟩

/-- Modelled from the spec: "destroying a template destroys any
container-typed fields it owns (argument list, environment mapping)" (spec
section 4.3; docs/plans.rst: "when you free the job template, it auto-frees
the list in the template").  The result is the list of container addresses
destroyed by `drmaa2_jtemplate_free`. -/
def drmaa2_jtemplate_free (jt : Jtemplate) : List Nat :=
  (match jt.args with
   | some a => [a]
   | none => []) ++
  (match jt.jobEnvironment with
   | some e => [e]
   | none => [])

/-- Modelled from the spec: a job-info descriptor (`drmaa2_jinfo_s` in
drmaa2.h) restricted to its `jobId` string member, the field exercised by
`list_free.c`; the field holds the address of a string buffer, or `none` for
the NULL set by `drmaa2_jinfo_create`. -/
structure Jinfo where
  jobId : Option Nat
deriving Repr, DecidableEq

/-- Modelled from the spec: `drmaa2_jinfo_create()` returns a descriptor with
the `jobId` field at its NULL default (`list_free.c` prints it as NULL). -/
def drmaa2_jinfo_create : Jinfo :=
  ⟨none⟩

/-- Modelled from the spec: `drmaa2_jinfo_free(&ji)` frees the descriptor and
its string members ("There are callbacks for creation of strings and other to
do freeing of members", docs/plans.rst; `job_info_fail` in `list_free.c`
double-frees by leaving `jobId` set).  The result is the list of string-buffer
addresses the runtime frees: the `jobId` buffer exactly when the field is
non-NULL. -/
def drmaa2_jinfo_free (ji : Jinfo) : List Nat :=
  match ji.jobId with
  | some a => [a]
  | none => []

/-! ## Session registry -/

/-- Modelled from the spec: the session-registry implementation is not in the
repository.  Spec sections 3 and 4.2: sessions are identified by name,
persisted beyond process exit until destroyed, while open handles live
in-process; "a session name maps to at most one live open-session object per
process".  `persisted` is the set of persisted session names and `openNames`
the names currently open in-process. -/
structure Registry where
  persisted : List String
  openNames : List String
deriving Repr, DecidableEq

/-- Modelled from the spec: `drmaa2_create_jsession(name, contact)` creates a
fresh named session, failing when persisted state for that name already exists
("a stale persisted session with no live handle blocks recreation until
destroyed", spec section 4.2); the observed failure code in `hold.c` is
`DRMAA2_INTERNAL` (6).  Returns the updated registry, the session handle
(`none` for the NULL returned on failure) and the error code.  On failure the
registry is unchanged: "The registry itself performs no automatic retry; it
surfaces the specific failure kind so the caller can decide." -/
def drmaa2_create_jsession (st : Registry) (name : String) :
    Registry × Option String × Int :=
  if name ∈ st.persisted then
    (st, none, DRMAA2_INTERNAL)
  else
    (⟨name :: st.persisted, name :: st.openNames⟩, some name, DRMAA2_SUCCESS)

/-- Modelled from the spec: `drmaa2_close_jsession(js)` "releases the
in-process handle without deleting persisted state" (spec section 3). -/
def drmaa2_close_jsession (st : Registry) (name : String) : Registry :=
  { st with openNames := st.openNames.erase name }

/-- Modelled from the spec: `drmaa2_destroy_jsession(name)` "deletes persisted
state permanently and fails if the session is currently open" (spec section 3;
`destroySession(name) -> fails(StillOpenElsewhere | NotFound)`, section 4.2).
Busy is reported as `DRMAA2_SESSION_MANAGEMENT`, not-found as
`DRMAA2_INVALID_SESSION`. -/
def drmaa2_destroy_jsession (st : Registry) (name : String) : Registry × Int :=
  if name ∈ st.openNames then
    (st, DRMAA2_SESSION_MANAGEMENT)
  else if name ∈ st.persisted then
    ({ st with persisted := st.persisted.erase name }, DRMAA2_SUCCESS)
  else
    (st, DRMAA2_INVALID_SESSION)

/-- The bounded create/destroy/retry loop of `job_with_hold` (hold.c lines
20-34): while no handle was obtained and attempts remain, call
`drmaa2_create_jsession`; when it fails with error 6 (`DRMAA2_INTERNAL`),
destroy the stale session by name and try again.  Returns the final registry
and the handle obtained, if any. -/
def createWithRetry : Nat → Registry → String → Registry × Option String
  | 0, st, _ => (st, none)
  | n + 1, st, name =>
      let r := drmaa2_create_jsession st name
      match r.2.1 with
      | some js => (r.1, some js)
      | none =>
          let st2 :=
            if r.2.2 = DRMAA2_INTERNAL then
              (drmaa2_destroy_jsession r.1 name).1
            else r.1
          createWithRetry n st2 name

/-! ## Last-error state and runtime-owned strings -/

/-- Which side of the API boundary owns a heap string: the runtime allocated
it (the caller must release it with `drmaa2_string_free`) or the caller
allocated it. -/
inductive StrOwner where
  | runtime
  | caller
deriving Repr, DecidableEq

/-- A `drmaa2_string` together with its ownership: `drmaa2_lasterror_text`
returns a runtime-owned string. -/
structure DrmaaString where
  val : String
  owner : StrOwner
deriving Repr, DecidableEq

/-- Modelled from the spec: the per-thread last-error state behind
`drmaa2_lasterror` and `drmaa2_lasterror_text` ("every failure carries a
human-readable description retrievable separately from the error kind", spec
section 7). -/
structure ErrState where
  lastError : Int
  lastErrorText : String
deriving Repr, DecidableEq

/-- Modelled from the spec: a failing operation records its error kind and its
human-readable description in the thread's last-error state. -/
def failWith (kind : Int) (desc : String) : ErrState :=
  ⟨kind, desc⟩

/-- Modelled from the spec: `drmaa2_lasterror()` returns the error kind of the
last failing operation, without touching the description. -/
def drmaa2_lasterror (st : ErrState) : Int :=
  st.lastError

/-- Modelled from the spec: `drmaa2_lasterror_text()` returns the
human-readable description of the last failing operation as a runtime-owned
string that the caller must release (spec section 7). -/
def drmaa2_lasterror_text (st : ErrState) : DrmaaString :=
  ⟨st.lastErrorText, StrOwner.runtime⟩

/-- Modelled from the spec: `drmaa2_string_free(&s)` releases a runtime-owned
string; the result is the deallocation log, the single string released. -/
def drmaa2_string_free (s : DrmaaString) : List DrmaaString :=
  [s]

/-- Modelled from the spec: `drmaa2_create_jsession` with the thread's
last-error state threaded through, as observed in hold.c and example.c: on
failure the returned handle is NULL and the error kind together with a
human-readable description is recorded for later retrieval through
`drmaa2_lasterror` and `drmaa2_lasterror_text`. -/
def create_jsession_checked (st : Registry) (err : ErrState) (name : String) :
    Registry × ErrState × Option String :=
  let r := drmaa2_create_jsession st name
  match r.2.1 with
  | some js => (r.1, err, some js)
  | none => (r.1, failWith r.2.2 "Could not create session.", none)

/-! ## Wait-any synchronizer -/

/-- Modelled from the spec: `drmaa2_jsession_wait_any_terminated(js, jobs,
timeout)` "blocks ... until at least one job in `jobs` reaches the target
milestone" and "returns exactly one job that satisfies the milestone; if
several became eligible concurrently, any one may be returned" (spec section
4.5).  The returned handle is an element of the supplied list itself, not a
copy (hold.c: "Look, the pointers are the same.").  The nondeterministic
choice among eligible jobs is resolved by an oracle index `c`, reduced modulo
the list size; with an infinite timeout and all jobs eventually terminating an
empty list is the only failure, modelled as `none`. -/
def drmaa2_jsession_wait_any_terminated (c : Nat) (jobs : DrmaaList Nat) :
    Option Nat :=
  jobs.elems.get? (c % jobs.elems.length)

/-- Modelled from the spec: `drmaa2_jsession_wait_any_started` has the same
contract as `drmaa2_jsession_wait_any_terminated` with the "started" milestone
in place of "terminated" (spec section 4.5); the returned handle is likewise an
element of the supplied list. -/
def drmaa2_jsession_wait_any_started (c : Nat) (jobs : DrmaaList Nat) :
    Option Nat :=
  jobs.elems.get? (c % jobs.elems.length)

/-- The drain loop of `job_with_hold` (hold.c lines 83-104): while the job
list is nonempty, wait for any terminated job, search the list for the
position holding the identical handle, and delete that position.  One oracle
value is consumed per iteration; the result is the sequence of returned jobs
and the final list. -/
def waitDrainLoop : List Nat → DrmaaList Nat → List Nat × DrmaaList Nat
  | [], l => ([], l)
  | c :: cs, l =>
      match drmaa2_jsession_wait_any_terminated c l with
      | none => ([], l)
      | some j =>
          let rest := (drmaa2_list_del l (l.elems.indexOf j)).1
          let out := waitDrainLoop cs rest
          (j :: out.1, out.2)

/-! ## Helper lemmas -/

/-- Container operations preserve the release-callback registration chosen at
creation. -/
theorem runListOps_hasRelease {α : Type} (l : DrmaaList α)
    (ops : List (ListOp α)) : (runListOps l ops).1.hasRelease = l.hasRelease := by
  induction ops generalizing l with
  | nil => rfl
  | cons op ops ih =>
      cases op with
      | add v =>
          have h := ih (drmaa2_list_add l v)
          simpa [runListOps, applyListOp, drmaa2_list_add] using h
      | del p =>
          have h := ih (drmaa2_list_del l p).1
          simpa [runListOps, applyListOp, drmaa2_list_del] using h

/-- No container operation between creation and destruction releases any
element: the accumulated release log of a run is empty. -/
theorem runListOps_log_nil {α : Type} (l : DrmaaList α)
    (ops : List (ListOp α)) : (runListOps l ops).2 = [] := by
  induction ops generalizing l with
  | nil => rfl
  | cons op ops ih =>
      cases op with
      | add v =>
          have h := ih (drmaa2_list_add l v)
          simpa [runListOps, applyListOp] using h
      | del p =>
          have h := ih (drmaa2_list_del l p).1
          simpa [runListOps, applyListOp, drmaa2_list_del] using h

/-- Size accounting for a valid run: final size plus deletions equals initial
size plus additions. -/
theorem runListOps_size {α : Type} (l : DrmaaList α) (ops : List (ListOp α))
    (h : validListOps l ops = true) :
    drmaa2_list_size (runListOps l ops).1 + delCount ops
      = drmaa2_list_size l + addCount ops := by
  induction ops generalizing l with
  | nil => simp [runListOps, delCount, addCount]
  | cons op ops ih =>
      cases op with
      | add v =>
          have h' : validListOps (drmaa2_list_add l v) ops = true := by
            simpa [validListOps] using h
          have hs : drmaa2_list_size (drmaa2_list_add l v)
              = drmaa2_list_size l + 1 := by
            simp [drmaa2_list_add, drmaa2_list_size]
          have := ih (drmaa2_list_add l v) h'
          simp only [runListOps, applyListOp, addCount, delCount]
          omega
      | del p =>
          have hp : p < drmaa2_list_size l ∧
              validListOps (drmaa2_list_del l p).1 ops = true := by
            have := h
            simp [validListOps, Bool.and_eq_true] at this
            exact this
          have hs : drmaa2_list_size (drmaa2_list_del l p).1 + 1
              = drmaa2_list_size l := by
            have := List.length_eraseIdx_add_one
              (l := l.elems) (i := p) hp.1
            simpa [drmaa2_list_del, drmaa2_list_size] using this
          have := ih (drmaa2_list_del l p).1 hp.2
          simp only [runListOps, applyListOp, addCount, delCount]
          omega

/-- Deleting the position found by an index search for `j` is the same as
erasing the first occurrence of `j`. -/
theorem eraseIdx_indexOf_eq_erase (j : Nat) (l : List Nat) :
    l.eraseIdx (l.indexOf j) = l.erase j := by
  induction l with
  | nil => rfl
  | cons x xs ih =>
      by_cases hx : x = j
      · subst hx
        simp [List.indexOf_cons_self, List.eraseIdx, List.erase_cons_head]
      · rw [List.indexOf_cons_ne _ hx,
          List.erase_cons_tail (by simp [hx] : ¬(x == j) = true)]
        simp [List.eraseIdx, ih]

/-- On a nonempty job list the wait-any synchronizer returns a job, and that
job is a member of the supplied list. -/
theorem wait_any_terminated_some (c : Nat) (l : DrmaaList Nat)
    (h : l.elems ≠ []) :
    ∃ j, drmaa2_jsession_wait_any_terminated c l = some j ∧ j ∈ l.elems := by
  have hlen : 0 < l.elems.length := List.length_pos.mpr h
  have hlt : c % l.elems.length < l.elems.length := Nat.mod_lt _ hlen
  refine ⟨l.elems.get ⟨c % l.elems.length, hlt⟩, ?_, List.get_mem _ _ _⟩
  simp [drmaa2_jsession_wait_any_terminated, List.get?_eq_get hlt]

/-- The drain loop returns a permutation of the job list and leaves the list
empty, when the jobs are distinct and one oracle value is supplied per job. -/
theorem waitDrainLoop_perm (choices : List Nat) (l : DrmaaList Nat)
    (hlen : choices.length = l.elems.length) (hnd : l.elems.Nodup) :
    (waitDrainLoop choices l).1.Perm l.elems ∧
      (waitDrainLoop choices l).2.elems = [] := by
  induction choices generalizing l with
  | nil =>
      have : l.elems = [] := by
        have := hlen.symm
        simpa [List.length_eq_zero] using this
      simp [waitDrainLoop, this]
  | cons c cs ih =>
      have hne : l.elems ≠ [] := by
        intro hnil
        rw [hnil] at hlen
        simp at hlen
      obtain ⟨j, hw, hj⟩ := wait_any_terminated_some c l hne
      have herase : (drmaa2_list_del l (l.elems.indexOf j)).1.elems
          = l.elems.erase j := by
        simp [drmaa2_list_del, eraseIdx_indexOf_eq_erase]
      have hlen' : cs.length = (l.elems.erase j).length := by
        have := List.length_erase_of_mem hj
        have h1 : l.elems.length = cs.length + 1 := by
          simpa using hlen.symm
        omega
      have hnd' : (l.elems.erase j).Nodup := hnd.erase j
      have ihx := ih (drmaa2_list_del l (l.elems.indexOf j)).1
        (by rw [herase]; exact hlen') (by rw [herase]; exact hnd')
      rw [herase] at ihx
      constructor
      · have hperm : l.elems.Perm (j :: l.elems.erase j) :=
          List.perm_cons_erase hj
        have hfst : (waitDrainLoop (c :: cs) l).1
            = j :: (waitDrainLoop cs
                (drmaa2_list_del l (l.elems.indexOf j)).1).1 := by
          simp [waitDrainLoop, hw]
        rw [hfst]
        exact (ihx.1.cons j).trans hperm.symm
      · have hsnd : (waitDrainLoop (c :: cs) l).2
            = (waitDrainLoop cs (drmaa2_list_del l (l.elems.indexOf j)).1).2 := by
          simp [waitDrainLoop, hw]
        rw [hsnd]
        exact ihx.2

/-! ## Claim theorems -/

/-- C1: for a set of K distinct submitted jobs, calling `waitAnyTerminated`
(`drmaa2_jsession_wait_any_terminated`) repeatedly, removing the returned job
from the job list after each call, returns each of the K jobs exactly once,
and after K calls the list has size 0 — for every resolution of the
nondeterministic choice among eligible jobs. -/
theorem wait_any_terminated_drains_all (choices : List Nat)
    (jobs : DrmaaList Nat) (j : Nat)
    (hlen : choices.length = drmaa2_list_size jobs)
    (hnd : jobs.elems.Nodup) (hj : j ∈ jobs.elems) :
    (waitDrainLoop choices jobs).1.count j = 1 ∧
    (waitDrainLoop choices jobs).1.length = drmaa2_list_size jobs ∧
    drmaa2_list_size (waitDrainLoop choices jobs).2 = 0 := by
  obtain ⟨hperm, hfin⟩ := waitDrainLoop_perm choices jobs hlen hnd
  refine ⟨?_, ?_, ?_⟩
  · rw [hperm.count_eq]
    exact List.count_eq_one_of_mem hnd hj
  · simpa [drmaa2_list_size] using hperm.length_eq
  · simp [drmaa2_list_size, hfin]

/-- Witness for C1: three distinct jobs 7, 8, 9 drained by three wait calls;
job 8 is returned exactly once and the list ends empty. -/
theorem wait_any_terminated_drains_all_witness :
    (waitDrainLoop [1, 1, 0] (⟨false, [7, 8, 9]⟩ : DrmaaList Nat)).1.count 8 = 1 ∧
    (waitDrainLoop [1, 1, 0] (⟨false, [7, 8, 9]⟩ : DrmaaList Nat)).1.length
      = drmaa2_list_size (⟨false, [7, 8, 9]⟩ : DrmaaList Nat) ∧
    drmaa2_list_size
      (waitDrainLoop [1, 1, 0] (⟨false, [7, 8, 9]⟩ : DrmaaList Nat)).2 = 0 :=
  wait_any_terminated_drains_all [1, 1, 0] (⟨false, [7, 8, 9]⟩ : DrmaaList Nat)
    8 (by decide) (by decide) (by decide)

/-- C2: for a container created with a release function, destroying it after
N elements have been added invokes the release function exactly N times minus
the number of elements detached via `drmaa2_list_del`; no operation before
destruction — in particular no `drmaa2_list_del` — invokes the release
function (the run's release log is empty). -/
theorem list_free_release_count {α : Type} (ops : List (ListOp α))
    (h : validListOps (drmaa2_list_create α true) ops = true) :
    (runListOps (drmaa2_list_create α true) ops).2 = [] ∧
    (drmaa2_list_free (runListOps (drmaa2_list_create α true) ops).1).length
      = addCount ops - delCount ops := by
  constructor
  · exact runListOps_log_nil _ _
  · have hrel : (runListOps (drmaa2_list_create α true) ops).1.hasRelease
        = true := by
      have h0 := runListOps_hasRelease (drmaa2_list_create α true) ops
      simpa [drmaa2_list_create] using h0
    have hsz := runListOps_size (drmaa2_list_create α true) ops h
    have hzero : drmaa2_list_size (drmaa2_list_create α true) = 0 := rfl
    rw [hzero] at hsz
    simp only [drmaa2_list_size] at hsz
    simp only [drmaa2_list_free, hrel, if_true]
    omega

/-- Witness for C2: three additions and one detachment; destruction releases
exactly 3 - 1 = 2 elements and the operations themselves release none. -/
theorem list_free_release_count_witness :
    (runListOps (drmaa2_list_create Nat true)
        [ListOp.add 10, ListOp.add 20, ListOp.add 30, ListOp.del 1]).2 = [] ∧
    (drmaa2_list_free (runListOps (drmaa2_list_create Nat true)
        [ListOp.add 10, ListOp.add 20, ListOp.add 30, ListOp.del 1]).1).length
      = addCount [ListOp.add 10, ListOp.add 20, ListOp.add 30, ListOp.del 1]
        - delCount [ListOp.add 10, ListOp.add 20, ListOp.add 30, ListOp.del 1] :=
  list_free_release_count
    [ListOp.add 10, ListOp.add 20, ListOp.add 30, ListOp.del 1] (by decide)

/-- C3: for a container created without a release function, destruction
invokes no deallocation on any element no matter what was added, so an
element the caller owns and frees exactly once afterwards is freed exactly
once in total — no double free. -/
theorem list_free_no_release {α : Type} [DecidableEq α]
    (ops : List (ListOp α)) (es : List α) (a : α)
    (hnd : es.Nodup) (ha : a ∈ es) :
    drmaa2_list_free (runListOps (drmaa2_list_create α false) ops).1 = [] ∧
    (drmaa2_list_free (runListOps (drmaa2_list_create α false) ops).1
        ++ es).count a = 1 := by
  have hrel : (runListOps (drmaa2_list_create α false) ops).1.hasRelease
      = false := by
    have h0 := runListOps_hasRelease (drmaa2_list_create α false) ops
    simpa [drmaa2_list_create] using h0
  have hfree : drmaa2_list_free
      (runListOps (drmaa2_list_create α false) ops).1 = [] := by
    simp [drmaa2_list_free, hrel]
  refine ⟨hfree, ?_⟩
  rw [hfree]
  simpa using List.count_eq_one_of_mem hnd ha

/-- Witness for C3: the `list_free_explicit` pattern of list_free.c in the
small — one caller-owned element added, container destroyed with no release,
element then freed once by the caller. -/
theorem list_free_no_release_witness :
    drmaa2_list_free (runListOps (drmaa2_list_create Nat false)
        [ListOp.add 5]).1 = [] ∧
    (drmaa2_list_free (runListOps (drmaa2_list_create Nat false)
        [ListOp.add 5]).1 ++ [5]).count 5 = 1 :=
  list_free_no_release [ListOp.add 5] [5] 5 (by decide) (by decide)

/-- C4: destroying a job template destroys a container installed in a
container-typed field (the args list) exactly once; a caller who destroys the
nested container separately as well brings the total to two destructions,
which violates the destroy-exactly-once contract. -/
theorem jtemplate_free_nested_container_once (jt : Jtemplate) (a : Nat)
    (hargs : jt.args = some a) (hne : jt.jobEnvironment ≠ some a) :
    (drmaa2_jtemplate_free jt).count a = 1 ∧
    (drmaa2_jtemplate_free jt ++ [a]).count a = 2 := by
  have h1 : (drmaa2_jtemplate_free jt).count a = 1 := by
    cases he : jt.jobEnvironment with
    | none => simp [drmaa2_jtemplate_free, hargs, he]
    | some e =>
        have hea : e ≠ a := fun h => hne (by rw [he, h])
        simp [drmaa2_jtemplate_free, hargs, he, List.count_cons, hea]
  refine ⟨h1, ?_⟩
  rw [List.count_append, h1]
  simp

/-- Witness for C4: the hold.c template with its args list installed at
address 3 and no environment dictionary. -/
theorem jtemplate_free_nested_container_once_witness :
    (drmaa2_jtemplate_free ⟨some 3, none⟩).count 3 = 1 ∧
    (drmaa2_jtemplate_free ⟨some 3, none⟩ ++ [3]).count 3 = 2 :=
  jtemplate_free_nested_container_once ⟨some 3, none⟩ 3 (by decide) (by decide)

/-- C5 counterexample: drmaa2.h defines the boolean unset marker to BE the
valid value false (`#define DRMAA2_UNSET_BOOL DRMAA2_FALSE`), so the claim
that the unset marker of a boolean field differs from false is refuted at the
boolean field instance. -/
theorem unset_bool_equals_false :
    DRMAA2_UNSET_BOOL = DRMAA2_FALSE ∧
    ¬ (DRMAA2_UNSET_BOOL ≠ DRMAA2_FALSE) := by
  exact ⟨rfl, fun h => h rfl⟩

/-- C5 amended: the unset markers of numeric, enum/state, time, string and
list fields are distinct from zero, from the empty value and from the valid
reported values (the unset time -3 also differs from the reserved timeout
constants 0, -1, -2), but for a boolean field the unset marker coincides with
`DRMAA2_FALSE` rather than being distinct from false. -/
theorem unset_markers_distinct_except_bool :
    DRMAA2_UNSET_NUM ≠ 0 ∧
    DRMAA2_UNSET_NUM < 0 ∧
    DRMAA2_UNSET_ENUM < 0 ∧
    drmaa2_jstate_values.count DRMAA2_UNSET_JSTATE = 0 ∧
    DRMAA2_UNSET_TIME ≠ DRMAA2_ZERO_TIME ∧
    DRMAA2_UNSET_TIME ≠ DRMAA2_INFINITE_TIME ∧
    DRMAA2_UNSET_TIME ≠ DRMAA2_NOW ∧
    DRMAA2_UNSET_TIME < DRMAA2_NOW ∧
    DRMAA2_UNSET_STRING ≠ some "" ∧
    DRMAA2_UNSET_LIST ≠ some [] ∧
    DRMAA2_UNSET_BOOL = DRMAA2_FALSE := by
  refine ⟨by decide, by decide, by decide, by decide, by decide, by decide,
    by decide, by decide, ?_, ?_, rfl⟩
  · intro h
    simp [DRMAA2_UNSET_STRING] at h
  · intro h
    simp [DRMAA2_UNSET_LIST] at h

/-- C6: when `drmaa2_create_jsession` fails with the Internal kind because a
stale persisted session of the same name exists with no live handle, the
failing call changes nothing and surfaces the specific failure kind (no
automatic retry inside the registry); an explicit `drmaa2_destroy_jsession`
on the name succeeds, the retried create succeeds, and the bounded two-attempt
retry loop of hold.c obtains a session handle. -/
theorem create_stale_destroy_retry (st : Registry) (name : String)
    (hp : name ∈ st.persisted) (ho : name ∉ st.openNames)
    (hnd : st.persisted.Nodup) :
    (drmaa2_create_jsession st name).2.1 = none ∧
    (drmaa2_create_jsession st name).2.2 = DRMAA2_INTERNAL ∧
    (drmaa2_create_jsession st name).1 = st ∧
    (drmaa2_destroy_jsession st name).2 = DRMAA2_SUCCESS ∧
    (drmaa2_create_jsession (drmaa2_destroy_jsession st name).1 name).2.1
      = some name ∧
    (createWithRetry 2 st name).2 = some name := by
  have hcreate : drmaa2_create_jsession st name = (st, none, DRMAA2_INTERNAL) := by
    simp [drmaa2_create_jsession, hp]
  have hdestroy : drmaa2_destroy_jsession st name
      = ({ st with persisted := st.persisted.erase name }, DRMAA2_SUCCESS) := by
    simp [drmaa2_destroy_jsession, ho, hp]
  have hgone : name ∉ st.persisted.erase name := fun hm =>
    ((List.Nodup.mem_erase_iff hnd).mp hm).1 rfl
  have hcreate2 : (drmaa2_create_jsession
      { st with persisted := st.persisted.erase name } name).2.1 = some name := by
    simp [drmaa2_create_jsession, hgone]
  refine ⟨by rw [hcreate], by rw [hcreate], by rw [hcreate],
    by rw [hdestroy], ?_, ?_⟩
  · rw [hdestroy]
    exact hcreate2
  · show (createWithRetry 2 st name).2 = some name
    rw [createWithRetry, hcreate]
    simp [hdestroy, createWithRetry, drmaa2_create_jsession, hgone]

/-- Witness for C6: the hold.c scenario — a stale persisted session
"adolgert1" with no open handle is destroyed and recreated within the
two-attempt retry loop. -/
theorem create_stale_destroy_retry_witness :
    (drmaa2_create_jsession ⟨["adolgert1"], []⟩ "adolgert1").2.1 = none ∧
    (drmaa2_create_jsession ⟨["adolgert1"], []⟩ "adolgert1").2.2
      = DRMAA2_INTERNAL ∧
    (drmaa2_create_jsession ⟨["adolgert1"], []⟩ "adolgert1").1
      = ⟨["adolgert1"], []⟩ ∧
    (drmaa2_destroy_jsession ⟨["adolgert1"], []⟩ "adolgert1").2
      = DRMAA2_SUCCESS ∧
    (drmaa2_create_jsession
      (drmaa2_destroy_jsession ⟨["adolgert1"], []⟩ "adolgert1").1
      "adolgert1").2.1 = some "adolgert1" ∧
    (createWithRetry 2 ⟨["adolgert1"], []⟩ "adolgert1").2 = some "adolgert1" :=
  create_stale_destroy_retry ⟨["adolgert1"], []⟩ "adolgert1"
    (by decide) (by decide) (by decide)

/-- C7: `drmaa2_destroy_jsession` on a name that is currently open in-process
fails with the SessionManagement (busy) kind and changes nothing; once the
session has been closed with `drmaa2_close_jsession`, destroying the same name
returns `DRMAA2_SUCCESS`. -/
theorem destroy_busy_until_closed (st : Registry) (name : String)
    (hopen : name ∈ st.openNames) (hp : name ∈ st.persisted)
    (hnd : st.openNames.Nodup) :
    (drmaa2_destroy_jsession st name).2 = DRMAA2_SESSION_MANAGEMENT ∧
    (drmaa2_destroy_jsession st name).1 = st ∧
    (drmaa2_destroy_jsession (drmaa2_close_jsession st name) name).2
      = DRMAA2_SUCCESS := by
  have hbusy : drmaa2_destroy_jsession st name
      = (st, DRMAA2_SESSION_MANAGEMENT) := by
    simp [drmaa2_destroy_jsession, hopen]
  have hclosed : name ∉ st.openNames.erase name := fun hm =>
    ((List.Nodup.mem_erase_iff hnd).mp hm).1 rfl
  refine ⟨by rw [hbusy], by rw [hbusy], ?_⟩
  simp [drmaa2_destroy_jsession, drmaa2_close_jsession, hclosed, hp]

/-- Witness for C7: the example.c scenario — session "adolgert1" is open, so
destroy is refused as busy; after close, destroy succeeds. -/
theorem destroy_busy_until_closed_witness :
    (drmaa2_destroy_jsession ⟨["adolgert1"], ["adolgert1"]⟩ "adolgert1").2
      = DRMAA2_SESSION_MANAGEMENT ∧
    (drmaa2_destroy_jsession ⟨["adolgert1"], ["adolgert1"]⟩ "adolgert1").1
      = ⟨["adolgert1"], ["adolgert1"]⟩ ∧
    (drmaa2_destroy_jsession
      (drmaa2_close_jsession ⟨["adolgert1"], ["adolgert1"]⟩ "adolgert1")
      "adolgert1").2 = DRMAA2_SUCCESS :=
  destroy_busy_until_closed ⟨["adolgert1"], ["adolgert1"]⟩ "adolgert1"
    (by decide) (by decide) (by decide)

/-- C8: after a failing operation (here a `drmaa2_create_jsession` that fails
on an existing persisted session), the error kind is retrievable via
`drmaa2_lasterror` and, separately, a human-readable description via
`drmaa2_lasterror_text`; the description is a runtime-owned string, and
`drmaa2_string_free` releases exactly that allocation. -/
theorem lasterror_kind_and_text (st : Registry) (err : ErrState) (name : String)
    (hfail : (create_jsession_checked st err name).2.2 = none) :
    drmaa2_lasterror (create_jsession_checked st err name).2.1
      = DRMAA2_INTERNAL ∧
    (drmaa2_lasterror_text (create_jsession_checked st err name).2.1).val
      = "Could not create session." ∧
    (drmaa2_lasterror_text (create_jsession_checked st err name).2.1).owner
      = StrOwner.runtime ∧
    drmaa2_string_free
        (drmaa2_lasterror_text (create_jsession_checked st err name).2.1)
      = [drmaa2_lasterror_text (create_jsession_checked st err name).2.1] := by
  by_cases hp : name ∈ st.persisted
  · have hc : create_jsession_checked st err name
        = (st, failWith DRMAA2_INTERNAL "Could not create session.", none) := by
      simp [create_jsession_checked, drmaa2_create_jsession, hp]
    rw [hc]
    exact ⟨rfl, rfl, rfl, rfl⟩
  · exfalso
    have hok : (create_jsession_checked st err name).2.2 = some name := by
      simp [create_jsession_checked, drmaa2_create_jsession, hp]
    rw [hok] at hfail
    exact Option.noConfusion hfail

/-- Witness for C8: creating "adolgert1" while a persisted session of that
name exists fails and leaves kind 6 and its description retrievable. -/
theorem lasterror_kind_and_text_witness :
    drmaa2_lasterror
        (create_jsession_checked ⟨["adolgert1"], []⟩ ⟨0, ""⟩ "adolgert1").2.1
      = DRMAA2_INTERNAL ∧
    (drmaa2_lasterror_text
        (create_jsession_checked ⟨["adolgert1"], []⟩ ⟨0, ""⟩ "adolgert1").2.1).val
      = "Could not create session." ∧
    (drmaa2_lasterror_text
        (create_jsession_checked ⟨["adolgert1"], []⟩ ⟨0, ""⟩ "adolgert1").2.1).owner
      = StrOwner.runtime ∧
    drmaa2_string_free (drmaa2_lasterror_text
        (create_jsession_checked ⟨["adolgert1"], []⟩ ⟨0, ""⟩ "adolgert1").2.1)
      = [drmaa2_lasterror_text
          (create_jsession_checked ⟨["adolgert1"], []⟩ ⟨0, ""⟩ "adolgert1").2.1] :=
  lasterror_kind_and_text ⟨["adolgert1"], []⟩ ⟨0, ""⟩ "adolgert1" (by decide)

/-- C9: whenever the wait-any synchronizer returns a job rather than failing,
the returned handle is one of the elements of the supplied job list — the
identical handle object, locatable by pointer comparison at some index of the
list — for both the terminated and the started milestone. -/
theorem wait_any_returns_identical_element (c d : Nat) (jobs : DrmaaList Nat)
    (j j' : Nat)
    (hterm : drmaa2_jsession_wait_any_terminated c jobs = some j)
    (hstart : drmaa2_jsession_wait_any_started d jobs = some j') :
    (j ∈ jobs.elems ∧ ∃ idx, drmaa2_list_get jobs idx = some j) ∧
    (j' ∈ jobs.elems ∧ ∃ idx, drmaa2_list_get jobs idx = some j') := by
  constructor
  · exact ⟨List.get?_mem hterm, ⟨c % jobs.elems.length, hterm⟩⟩
  · exact ⟨List.get?_mem hstart, ⟨d % jobs.elems.length, hstart⟩⟩

/-- Witness for C9: on the two-job list of hold.c, the wait calls return
handles 20 and 10, both elements of the supplied list. -/
theorem wait_any_returns_identical_element_witness :
    (20 ∈ (⟨false, [10, 20]⟩ : DrmaaList Nat).elems ∧
      ∃ idx, drmaa2_list_get (⟨false, [10, 20]⟩ : DrmaaList Nat) idx
        = some 20) ∧
    (10 ∈ (⟨false, [10, 20]⟩ : DrmaaList Nat).elems ∧
      ∃ idx, drmaa2_list_get (⟨false, [10, 20]⟩ : DrmaaList Nat) idx
        = some 10) :=
  wait_any_returns_identical_element 1 0 (⟨false, [10, 20]⟩ : DrmaaList Nat)
    20 10 (by decide) (by decide)

/-- C10: `drmaa2_jinfo_free` releases the jobId buffer exactly when the field
is non-NULL; leaving the field set and also freeing the buffer separately
frees the same address twice (the job_info_fail pattern), while clearing the
field to NULL first leaves exactly one free by the caller (the job_info_try
pattern). -/
theorem jinfo_free_jobid_ownership (a : Nat) :
    drmaa2_jinfo_free { jobId := some a } = [a] ∧
    drmaa2_jinfo_free { jobId := none } = [] ∧
    (drmaa2_jinfo_free { jobId := some a } ++ [a]).count a = 2 ∧
    (drmaa2_jinfo_free { jobId := none } ++ [a]).count a = 1 := by
  refine ⟨rfl, rfl, ?_, ?_⟩ <;> simp [drmaa2_jinfo_free]

/-- Witness for C10 at the concrete buffer address 12. -/
theorem jinfo_free_jobid_ownership_witness :
    drmaa2_jinfo_free { jobId := some 12 } = [12] ∧
    drmaa2_jinfo_free { jobId := none } = [] ∧
    (drmaa2_jinfo_free { jobId := some 12 } ++ [12]).count 12 = 2 ∧
    (drmaa2_jinfo_free { jobId := none } ++ [12]).count 12 = 1 :=
  jinfo_free_jobid_ownership 12

end Drmaa2
